import Mathlib

/-!
Verification of the simulator-telemetry and flight-reporting core of the
airspace-acars agent.

The Go source is shallowly embedded: IEEE-754 doubles and singles are
modelled as rational numbers, wall-clock instants as natural numbers
(seconds or milliseconds, stated at each definition), byte buffers as
lists of naturals below 256, and fallible calls as `Except` or as explicit
result pairs.  Fixed-size Go arrays ([4]EngineData, [5]DoorData) are
modelled as structures with one named field per slot.
-/

namespace AirspaceAcars

/-! ### Unified data model (FlightData and its sub-records) -/

/-- PositionData from the unified data model. -/
structure PositionData where
  latitude : ℚ
  longitude : ℚ
  altitude : ℚ
  altitudeAGL : ℚ
  deriving Repr, DecidableEq

/-- AttitudeData from the unified data model. -/
structure AttitudeData where
  pitch : ℚ
  roll : ℚ
  headingTrue : ℚ
  headingMag : ℚ
  vs : ℚ
  ias : ℚ
  tas : ℚ
  gs : ℚ
  gForce : ℚ
  deriving Repr, DecidableEq

/-- EngineData from the unified data model. -/
structure EngineData where
  exists_flag : Bool
  running : Bool
  n1 : ℚ
  n2 : ℚ
  throttlePos : ℚ
  mixturePos : ℚ
  propPos : ℚ
  deriving Repr, DecidableEq

/-- SensorData from the unified data model. -/
structure SensorData where
  onGround : Bool
  stallWarning : Bool
  overspeedWarning : Bool
  simulationRate : ℚ
  deriving Repr, DecidableEq

/-- RadioData from the unified data model. -/
structure RadioData where
  com1 : ℚ
  com2 : ℚ
  nav1 : ℚ
  nav2 : ℚ
  nav1OBS : ℚ
  nav2OBS : ℚ
  xpdrCode : ℚ
  xpdrState : String
  deriving Repr, DecidableEq

/-- AutopilotData from the unified data model. -/
structure AutopilotData where
  master : Bool
  heading : ℚ
  altitude : ℚ
  vs : ℚ
  speed : ℚ
  approachHold : Bool
  navLock : Bool
  deriving Repr, DecidableEq

/-- LightData from the unified data model. -/
structure LightData where
  beacon : Bool
  strobe : Bool
  landing : Bool
  deriving Repr, DecidableEq

/-- FlightControlData from the unified data model. -/
structure FlightControlData where
  elevator : ℚ
  aileron : ℚ
  rudder : ℚ
  flaps : ℚ
  spoilers : ℚ
  gearDown : Bool
  deriving Repr, DecidableEq

/-- SimTimeData from the unified data model. -/
structure SimTimeData where
  zuluTime : ℚ
  zuluDay : ℚ
  zuluMonth : ℚ
  zuluYear : ℚ
  localTime : ℚ
  deriving Repr, DecidableEq

/-- APUData from the unified data model. -/
structure APUData where
  switchOn : Bool
  rpmPercent : ℚ
  genSwitch : Bool
  genActive : Bool
  deriving Repr, DecidableEq

/-- DoorData from the unified data model; doorOpen is the open fraction
between 0 and 1 of one cabin door. -/
structure DoorData where
  doorOpen : ℚ
  deriving Repr, DecidableEq

/-- WeightData from the unified data model. -/
structure WeightData where
  totalWeight : ℚ
  fuelWeight : ℚ
  deriving Repr, DecidableEq

/-- The four fixed engine slots of the Go array [4]EngineData. -/
structure EnginesData where
  engine0 : EngineData
  engine1 : EngineData
  engine2 : EngineData
  engine3 : EngineData
  deriving Repr, DecidableEq

/-- The five fixed door slots of the Go array [5]DoorData. -/
structure DoorsData where
  door0 : DoorData
  door1 : DoorData
  door2 : DoorData
  door3 : DoorData
  door4 : DoorData
  deriving Repr, DecidableEq

/-- FlightData, the unified telemetry snapshot. -/
structure FlightData where
  position : PositionData
  attitude : AttitudeData
  engines : EnginesData
  sensors : SensorData
  radios : RadioData
  autopilot : AutopilotData
  altimeter : ℚ
  lights : LightData
  controls : FlightControlData
  simTime : SimTimeData
  apu : APUData
  doors : DoorsData
  aircraftName : String
  weight : WeightData
  deriving Repr, DecidableEq

/-- The Go zero value of EngineData. -/
def EngineData.zero : EngineData := ⟨false, false, 0, 0, 0, 0, 0⟩

/-- The Go zero value of FlightData: every numeric field 0, every flag
false, every string empty. -/
def FlightData.zero : FlightData :=
  { position := ⟨0, 0, 0, 0⟩
    attitude := ⟨0, 0, 0, 0, 0, 0, 0, 0, 0⟩
    engines := ⟨EngineData.zero, EngineData.zero, EngineData.zero, EngineData.zero⟩
    sensors := ⟨false, false, false, 0⟩
    radios := ⟨0, 0, 0, 0, 0, 0, 0, ""⟩
    autopilot := ⟨false, 0, 0, 0, 0, false, false⟩
    altimeter := 0
    lights := ⟨false, false, false⟩
    controls := ⟨0, 0, 0, 0, 0, false⟩
    simTime := ⟨0, 0, 0, 0, 0⟩
    apu := ⟨false, 0, false, false⟩
    doors := ⟨⟨0⟩, ⟨0⟩, ⟨0⟩, ⟨0⟩, ⟨0⟩⟩
    aircraftName := ""
    weight := ⟨0, 0⟩ }

/-- TransponderStateString maps a numeric transponder mode to a
human-readable string: 0 is off, 1 is stand-by, anything else active.
Translated from the shared data-model file. -/
def TransponderStateString (val : ℚ) : String :=
  if ⌊val⌋ = 0 then "off"
  else if ⌊val⌋ = 1 then "stand-by"
  else "active"

/-! ### Null-trimmed ASCII decoding (native adapter helper) -/

/-- ASCII decoding of a list of byte values. -/
def asciiString (l : List ℕ) : String := String.mk (l.map Char.ofNat)

/-- trimNullBytes returns the ASCII decoding of the prefix before the
first zero byte; when no zero byte occurs the whole slice is decoded.
Translated from the native-adapter helper of the same name. -/
def trimNullBytes (b : List ℕ) : String :=
  asciiString (b.takeWhile (fun v => v != 0))

/-- The byte values of the ASCII text Boeing 737. -/
def boeingBytes : List ℕ := [66, 111, 101, 105, 110, 103, 32, 55, 51, 55]

theorem takeWhile_append_all {α : Type} (p : α → Bool) :
    ∀ (l₁ l₂ : List α), (∀ x ∈ l₁, p x = true) →
      (l₁ ++ l₂).takeWhile p = l₁ ++ l₂.takeWhile p := by
  intro l₁ l₂ h
  induction l₁ with
  | nil => simp
  | cons a t ih =>
      have ha : p a = true := h a (by simp)
      simp [List.takeWhile, ha]
      exact ih fun x hx => h x (by simp [hx])

theorem takeWhile_eq_self_of_all {α : Type} (p : α → Bool) :
    ∀ (l : List α), (∀ x ∈ l, p x = true) → l.takeWhile p = l := by
  intro l h
  induction l with
  | nil => rfl
  | cons a t ih =>
      have ha : p a = true := h a (by simp)
      simp [List.takeWhile, ha]
      exact fun x hx => h x (by simp [hx])

theorem takeWhile_replicate_zero (n : ℕ) :
    (List.replicate n (0 : ℕ)).takeWhile (fun v => v != 0) = [] := by
  cases n with
  | zero => rfl
  | succ m => simp [List.replicate_succ, List.takeWhile]

/-- C9: the null-trim function returns the ASCII decoding of the prefix
before the first zero byte: Boeing 737 followed by any zero padding
decodes to the text Boeing 737; an all-zero slice decodes to the empty
string; a slice containing no zero byte decodes entirely. -/
theorem C9_trimNullBytes_spec :
    (∀ n : ℕ, trimNullBytes (boeingBytes ++ List.replicate n 0) = "Boeing 737")
    ∧ (∀ n : ℕ, trimNullBytes (List.replicate n 0) = "")
    ∧ (∀ b : List ℕ, (∀ v ∈ b, v ≠ 0) → trimNullBytes b = asciiString b) := by
  refine ⟨?_, ?_, ?_⟩
  · intro n
    unfold trimNullBytes
    rw [takeWhile_append_all _ boeingBytes _ (by decide), takeWhile_replicate_zero]
    decide
  · intro n
    unfold trimNullBytes
    rw [takeWhile_replicate_zero]
    rfl
  · intro b h
    unfold trimNullBytes
    rw [takeWhile_eq_self_of_all _ b fun x hx => by
      simpa using h x hx]

/-- Witness for C9 at the concrete no-zero slice [65]. -/
theorem C9_trimNullBytes_spec_witness :
    trimNullBytes [65] = asciiString [65] :=
  C9_trimNullBytes_spec.2.2 [65] (by decide)

/-! ### Adapter latest (GetFlightData) of both adapters -/

/-- Error values surfaced by the adapter read path. -/
inductive AdapterErr where
  | noData
  | notConnected
  deriving Repr, DecidableEq

/-- GetFlightData of the native SimConnect adapter: fails while no
snapshot has been decoded yet (latestData is nil), otherwise returns a
copy of the cached snapshot.  Translated from the SimConnect adapter. -/
def simconnectGetFlightData (latestData : Option FlightData) :
    Except AdapterErr FlightData :=
  match latestData with
  | none => .error .noData
  | some d => .ok d

/-- GetFlightData of the X-Plane UDP adapter: fails only when the UDP
socket is nil (not connected); otherwise it returns a copy of the cached
snapshot field, which starts at the Go zero value before any datagram has
been received.  Translated from the X-Plane adapter. -/
def xplaneGetFlightData (connected : Bool) (cached : FlightData) :
    Except AdapterErr FlightData :=
  if connected = false then .error .notConnected
  else .ok cached

/-- C5 counterexample: on the X-Plane adapter in the state reached right
after a successful open with no datagram observed yet (socket attached,
cache still the zero value), GetFlightData returns the zero snapshot
successfully instead of failing with NoData, contradicting the claim for
that adapter. -/
theorem C5_xplane_returns_snapshot_before_data :
    xplaneGetFlightData true FlightData.zero = .ok FlightData.zero ∧
    xplaneGetFlightData true FlightData.zero ≠ .error .noData := by
  constructor
  · rfl
  · intro h
    simp [xplaneGetFlightData] at h

/-- C5 amended: the SimConnect adapter fails with NoData before any
snapshot has been observed and returns the most recent snapshot
afterwards; the X-Plane adapter fails only when not connected, and once
connected returns its cached snapshot (initially the zero value) even
before any datagram has been observed. -/
theorem C5_latest_amended :
    simconnectGetFlightData none = .error .noData
    ∧ (∀ d : FlightData, simconnectGetFlightData (some d) = .ok d)
    ∧ (∀ d : FlightData, xplaneGetFlightData false d = .error .notConnected)
    ∧ (∀ d : FlightData, xplaneGetFlightData true d = .ok d) :=
  ⟨rfl, fun _ => rfl, fun _ => rfl, fun _ => rfl⟩

/-! ### X-Plane UDP subscription dictionary and response decoding -/

/-- The fixed ordered RREF dataref dictionary of the X-Plane adapter; the
position of each path is its subscription index, matched by the switch
cases of the listen loop. -/
def xplaneDatarefs : List String :=
  [ "sim/flightmodel/position/latitude"
  , "sim/flightmodel/position/longitude"
  , "sim/flightmodel/position/elevation"
  , "sim/flightmodel/position/y_agl"
  , "sim/flightmodel/position/theta"
  , "sim/flightmodel/position/phi"
  , "sim/flightmodel/position/psi"
  , "sim/flightmodel/position/mag_psi"
  , "sim/flightmodel/position/vh_ind_fpm"
  , "sim/flightmodel/position/indicated_airspeed"
  , "sim/flightmodel/position/true_airspeed"
  , "sim/flightmodel/position/groundspeed"
  , "sim/flightmodel/engine/ENGN_running[0]"
  , "sim/flightmodel/engine/ENGN_N1_[0]"
  , "sim/flightmodel/engine/ENGN_N2_[0]"
  , "sim/cockpit2/engine/actuators/throttle_ratio[0]"
  , "sim/cockpit2/engine/actuators/mixture_ratio[0]"
  , "sim/cockpit2/engine/actuators/prop_ratio[0]"
  , "sim/flightmodel/failures/onground_any"
  , "sim/cockpit2/annunciators/stall_warning"
  , "sim/cockpit2/annunciators/overspeed"
  , "sim/time/sim_speed"
  , "sim/cockpit/radios/com1_freq_hz"
  , "sim/cockpit/radios/com2_freq_hz"
  , "sim/cockpit/radios/nav1_freq_hz"
  , "sim/cockpit/radios/nav2_freq_hz"
  , "sim/cockpit/radios/nav1_obs_degm"
  , "sim/cockpit/radios/nav2_obs_degm"
  , "sim/cockpit/radios/transponder_code"
  , "sim/cockpit/radios/transponder_mode"
  , "sim/cockpit/autopilot/autopilot_mode"
  , "sim/cockpit/autopilot/heading_mag"
  , "sim/cockpit/autopilot/altitude"
  , "sim/cockpit/autopilot/vertical_velocity"
  , "sim/cockpit/autopilot/airspeed"
  , "sim/cockpit2/autopilot/approach_status"
  , "sim/cockpit2/autopilot/nav_status"
  , "sim/cockpit/misc/barometer_setting"
  , "sim/cockpit/electrical/beacon_lights_on"
  , "sim/cockpit/electrical/strobe_lights_on"
  , "sim/cockpit/electrical/landing_lights_on"
  , "sim/cockpit2/controls/yoke_pitch_ratio"
  , "sim/cockpit2/controls/yoke_roll_ratio"
  , "sim/cockpit2/controls/yoke_heading_ratio"
  , "sim/cockpit2/controls/flap_ratio"
  , "sim/cockpit2/controls/speedbrake_ratio"
  , "sim/cockpit/switches/gear_handle_status"
  , "sim/time/zulu_time_sec"
  , "sim/time/local_date_days"
  , "sim/time/local_date_days"
  , "sim/time/local_date_days"
  , "sim/time/local_time_sec"
  , "sim/flightmodel/position/g_nrml"
  , "sim/flightmodel/engine/ENGN_running[1]"
  , "sim/flightmodel/engine/ENGN_N1_[1]"
  , "sim/flightmodel/engine/ENGN_N2_[1]"
  , "sim/cockpit2/engine/actuators/throttle_ratio[1]"
  , "sim/cockpit2/engine/actuators/mixture_ratio[1]"
  , "sim/cockpit2/engine/actuators/prop_ratio[1]"
  , "sim/flightmodel/engine/ENGN_running[2]"
  , "sim/flightmodel/engine/ENGN_N1_[2]"
  , "sim/flightmodel/engine/ENGN_N2_[2]"
  , "sim/cockpit2/engine/actuators/throttle_ratio[2]"
  , "sim/cockpit2/engine/actuators/mixture_ratio[2]"
  , "sim/cockpit2/engine/actuators/prop_ratio[2]"
  , "sim/flightmodel/engine/ENGN_running[3]"
  , "sim/flightmodel/engine/ENGN_N1_[3]"
  , "sim/flightmodel/engine/ENGN_N2_[3]"
  , "sim/cockpit2/engine/actuators/throttle_ratio[3]"
  , "sim/cockpit2/engine/actuators/mixture_ratio[3]"
  , "sim/cockpit2/engine/actuators/prop_ratio[3]"
  , "sim/flightmodel/weight/m_total"
  , "sim/flightmodel/weight/m_fuel_total" ]

/-- Boolean reading of an RREF float value, the Go comparison val not
equal to zero. -/
def qBool (val : ℚ) : Bool := decide (val ≠ 0)

/-- applyEntry applies one decoded RREF response entry (index, value) to
the cached snapshot; each case updates the single snapshot field mapped
to the index, with the unit conversion of the listen-loop switch; an
index with no case leaves the snapshot unchanged.  Translated case by
case from the listen loop of the X-Plane adapter. -/
def applyEntry (idx : ℕ) (val : ℚ) (s : FlightData) : FlightData :=
  match idx with
  | 0 => { s with position := { s.position with latitude := val } }
  | 1 => { s with position := { s.position with longitude := val } }
  | 2 => { s with position := { s.position with altitude := val * 3.28084 } }
  | 3 => { s with position := { s.position with altitudeAGL := val * 3.28084 } }
  | 4 => { s with attitude := { s.attitude with pitch := val } }
  | 5 => { s with attitude := { s.attitude with roll := val } }
  | 6 => { s with attitude := { s.attitude with headingTrue := val } }
  | 7 => { s with attitude := { s.attitude with headingMag := val } }
  | 8 => { s with attitude := { s.attitude with vs := val } }
  | 9 => { s with attitude := { s.attitude with ias := val } }
  | 10 => { s with attitude := { s.attitude with tas := val * 1.94384 } }
  | 11 => { s with attitude := { s.attitude with gs := val * 1.94384 } }
  | 12 => { s with engines := { s.engines with engine0 := { s.engines.engine0 with running := qBool val } } }
  | 13 => { s with engines := { s.engines with engine0 := { s.engines.engine0 with n1 := val } } }
  | 14 => { s with engines := { s.engines with engine0 := { s.engines.engine0 with n2 := val } } }
  | 15 => { s with engines := { s.engines with engine0 := { s.engines.engine0 with throttlePos := val * 100 } } }
  | 16 => { s with engines := { s.engines with engine0 := { s.engines.engine0 with mixturePos := val * 100 } } }
  | 17 => { s with engines := { s.engines with engine0 := { s.engines.engine0 with propPos := val * 100 } } }
  | 18 => { s with sensors := { s.sensors with onGround := qBool val } }
  | 19 => { s with sensors := { s.sensors with stallWarning := qBool val } }
  | 20 => { s with sensors := { s.sensors with overspeedWarning := qBool val } }
  | 21 => { s with sensors := { s.sensors with simulationRate := val } }
  | 22 => { s with radios := { s.radios with com1 := val / 100 } }
  | 23 => { s with radios := { s.radios with com2 := val / 100 } }
  | 24 => { s with radios := { s.radios with nav1 := val / 100 } }
  | 25 => { s with radios := { s.radios with nav2 := val / 100 } }
  | 26 => { s with radios := { s.radios with nav1OBS := val } }
  | 27 => { s with radios := { s.radios with nav2OBS := val } }
  | 28 => { s with radios := { s.radios with xpdrCode := val } }
  | 29 => { s with radios := { s.radios with xpdrState := TransponderStateString val } }
  | 30 => { s with autopilot := { s.autopilot with master := qBool val } }
  | 31 => { s with autopilot := { s.autopilot with heading := val } }
  | 32 => { s with autopilot := { s.autopilot with altitude := val } }
  | 33 => { s with autopilot := { s.autopilot with vs := val } }
  | 34 => { s with autopilot := { s.autopilot with speed := val } }
  | 35 => { s with autopilot := { s.autopilot with approachHold := qBool val } }
  | 36 => { s with autopilot := { s.autopilot with navLock := qBool val } }
  | 37 => { s with altimeter := val }
  | 38 => { s with lights := { s.lights with beacon := qBool val } }
  | 39 => { s with lights := { s.lights with strobe := qBool val } }
  | 40 => { s with lights := { s.lights with landing := qBool val } }
  | 41 => { s with controls := { s.controls with elevator := val } }
  | 42 => { s with controls := { s.controls with aileron := val } }
  | 43 => { s with controls := { s.controls with rudder := val } }
  | 44 => { s with controls := { s.controls with flaps := val * 100 } }
  | 45 => { s with controls := { s.controls with spoilers := val * 100 } }
  | 46 => { s with controls := { s.controls with gearDown := qBool val } }
  | 47 => { s with simTime := { s.simTime with zuluTime := val } }
  | 48 => { s with simTime := { s.simTime with zuluDay := val } }
  | 49 => { s with simTime := { s.simTime with zuluMonth := val } }
  | 50 => { s with simTime := { s.simTime with zuluYear := val } }
  | 51 => { s with simTime := { s.simTime with localTime := val } }
  | 52 => { s with attitude := { s.attitude with gForce := val } }
  | 53 => { s with engines := { s.engines with engine1 := { s.engines.engine1 with running := qBool val } } }
  | 54 => { s with engines := { s.engines with engine1 := { s.engines.engine1 with n1 := val } } }
  | 55 => { s with engines := { s.engines with engine1 := { s.engines.engine1 with n2 := val } } }
  | 56 => { s with engines := { s.engines with engine1 := { s.engines.engine1 with throttlePos := val * 100 } } }
  | 57 => { s with engines := { s.engines with engine1 := { s.engines.engine1 with mixturePos := val * 100 } } }
  | 58 => { s with engines := { s.engines with engine1 := { s.engines.engine1 with propPos := val * 100 } } }
  | 59 => { s with engines := { s.engines with engine2 := { s.engines.engine2 with running := qBool val } } }
  | 60 => { s with engines := { s.engines with engine2 := { s.engines.engine2 with n1 := val } } }
  | 61 => { s with engines := { s.engines with engine2 := { s.engines.engine2 with n2 := val } } }
  | 62 => { s with engines := { s.engines with engine2 := { s.engines.engine2 with throttlePos := val * 100 } } }
  | 63 => { s with engines := { s.engines with engine2 := { s.engines.engine2 with mixturePos := val * 100 } } }
  | 64 => { s with engines := { s.engines with engine2 := { s.engines.engine2 with propPos := val * 100 } } }
  | 65 => { s with engines := { s.engines with engine3 := { s.engines.engine3 with running := qBool val } } }
  | 66 => { s with engines := { s.engines with engine3 := { s.engines.engine3 with n1 := val } } }
  | 67 => { s with engines := { s.engines with engine3 := { s.engines.engine3 with n2 := val } } }
  | 68 => { s with engines := { s.engines with engine3 := { s.engines.engine3 with throttlePos := val * 100 } } }
  | 69 => { s with engines := { s.engines with engine3 := { s.engines.engine3 with mixturePos := val * 100 } } }
  | 70 => { s with engines := { s.engines with engine3 := { s.engines.engine3 with propPos := val * 100 } } }
  | 71 => { s with weight := { s.weight with totalWeight := val * 2.20462 } }
  | 72 => { s with weight := { s.weight with fuelWeight := val * 2.20462 } }
  | _ + 73 => s

/-- C6: the dictionary has 73 indices, and for every dictionary index i
and value v, applying a well-formed RREF entry (i, v) updates exactly the
snapshot field mapped to i with the documented unit conversion (metres to
feet times 3.28084, metres per second to knots times 1.94384, kilograms
to pounds times 2.20462, frequency to MHz divided by 100, ratio to
percent times 100, boolean and transponder-state coercions, identity
otherwise); the single-field record updates on the right of each equation
state that every other FlightData field is left unchanged. -/
theorem C6_rref_entry_updates_exactly_mapped_field :
    xplaneDatarefs.length = 73 ∧
    ∀ (val : ℚ) (s : FlightData),
      applyEntry 0 val s = { s with position := { s.position with latitude := val } }
      ∧ applyEntry 1 val s = { s with position := { s.position with longitude := val } }
      ∧ applyEntry 2 val s = { s with position := { s.position with altitude := val * 3.28084 } }
      ∧ applyEntry 3 val s = { s with position := { s.position with altitudeAGL := val * 3.28084 } }
      ∧ applyEntry 4 val s = { s with attitude := { s.attitude with pitch := val } }
      ∧ applyEntry 5 val s = { s with attitude := { s.attitude with roll := val } }
      ∧ applyEntry 6 val s = { s with attitude := { s.attitude with headingTrue := val } }
      ∧ applyEntry 7 val s = { s with attitude := { s.attitude with headingMag := val } }
      ∧ applyEntry 8 val s = { s with attitude := { s.attitude with vs := val } }
      ∧ applyEntry 9 val s = { s with attitude := { s.attitude with ias := val } }
      ∧ applyEntry 10 val s = { s with attitude := { s.attitude with tas := val * 1.94384 } }
      ∧ applyEntry 11 val s = { s with attitude := { s.attitude with gs := val * 1.94384 } }
      ∧ applyEntry 12 val s = { s with engines := { s.engines with engine0 := { s.engines.engine0 with running := qBool val } } }
      ∧ applyEntry 13 val s = { s with engines := { s.engines with engine0 := { s.engines.engine0 with n1 := val } } }
      ∧ applyEntry 14 val s = { s with engines := { s.engines with engine0 := { s.engines.engine0 with n2 := val } } }
      ∧ applyEntry 15 val s = { s with engines := { s.engines with engine0 := { s.engines.engine0 with throttlePos := val * 100 } } }
      ∧ applyEntry 16 val s = { s with engines := { s.engines with engine0 := { s.engines.engine0 with mixturePos := val * 100 } } }
      ∧ applyEntry 17 val s = { s with engines := { s.engines with engine0 := { s.engines.engine0 with propPos := val * 100 } } }
      ∧ applyEntry 18 val s = { s with sensors := { s.sensors with onGround := qBool val } }
      ∧ applyEntry 19 val s = { s with sensors := { s.sensors with stallWarning := qBool val } }
      ∧ applyEntry 20 val s = { s with sensors := { s.sensors with overspeedWarning := qBool val } }
      ∧ applyEntry 21 val s = { s with sensors := { s.sensors with simulationRate := val } }
      ∧ applyEntry 22 val s = { s with radios := { s.radios with com1 := val / 100 } }
      ∧ applyEntry 23 val s = { s with radios := { s.radios with com2 := val / 100 } }
      ∧ applyEntry 24 val s = { s with radios := { s.radios with nav1 := val / 100 } }
      ∧ applyEntry 25 val s = { s with radios := { s.radios with nav2 := val / 100 } }
      ∧ applyEntry 26 val s = { s with radios := { s.radios with nav1OBS := val } }
      ∧ applyEntry 27 val s = { s with radios := { s.radios with nav2OBS := val } }
      ∧ applyEntry 28 val s = { s with radios := { s.radios with xpdrCode := val } }
      ∧ applyEntry 29 val s = { s with radios := { s.radios with xpdrState := TransponderStateString val } }
      ∧ applyEntry 30 val s = { s with autopilot := { s.autopilot with master := qBool val } }
      ∧ applyEntry 31 val s = { s with autopilot := { s.autopilot with heading := val } }
      ∧ applyEntry 32 val s = { s with autopilot := { s.autopilot with altitude := val } }
      ∧ applyEntry 33 val s = { s with autopilot := { s.autopilot with vs := val } }
      ∧ applyEntry 34 val s = { s with autopilot := { s.autopilot with speed := val } }
      ∧ applyEntry 35 val s = { s with autopilot := { s.autopilot with approachHold := qBool val } }
      ∧ applyEntry 36 val s = { s with autopilot := { s.autopilot with navLock := qBool val } }
      ∧ applyEntry 37 val s = { s with altimeter := val }
      ∧ applyEntry 38 val s = { s with lights := { s.lights with beacon := qBool val } }
      ∧ applyEntry 39 val s = { s with lights := { s.lights with strobe := qBool val } }
      ∧ applyEntry 40 val s = { s with lights := { s.lights with landing := qBool val } }
      ∧ applyEntry 41 val s = { s with controls := { s.controls with elevator := val } }
      ∧ applyEntry 42 val s = { s with controls := { s.controls with aileron := val } }
      ∧ applyEntry 43 val s = { s with controls := { s.controls with rudder := val } }
      ∧ applyEntry 44 val s = { s with controls := { s.controls with flaps := val * 100 } }
      ∧ applyEntry 45 val s = { s with controls := { s.controls with spoilers := val * 100 } }
      ∧ applyEntry 46 val s = { s with controls := { s.controls with gearDown := qBool val } }
      ∧ applyEntry 47 val s = { s with simTime := { s.simTime with zuluTime := val } }
      ∧ applyEntry 48 val s = { s with simTime := { s.simTime with zuluDay := val } }
      ∧ applyEntry 49 val s = { s with simTime := { s.simTime with zuluMonth := val } }
      ∧ applyEntry 50 val s = { s with simTime := { s.simTime with zuluYear := val } }
      ∧ applyEntry 51 val s = { s with simTime := { s.simTime with localTime := val } }
      ∧ applyEntry 52 val s = { s with attitude := { s.attitude with gForce := val } }
      ∧ applyEntry 53 val s = { s with engines := { s.engines with engine1 := { s.engines.engine1 with running := qBool val } } }
      ∧ applyEntry 54 val s = { s with engines := { s.engines with engine1 := { s.engines.engine1 with n1 := val } } }
      ∧ applyEntry 55 val s = { s with engines := { s.engines with engine1 := { s.engines.engine1 with n2 := val } } }
      ∧ applyEntry 56 val s = { s with engines := { s.engines with engine1 := { s.engines.engine1 with throttlePos := val * 100 } } }
      ∧ applyEntry 57 val s = { s with engines := { s.engines with engine1 := { s.engines.engine1 with mixturePos := val * 100 } } }
      ∧ applyEntry 58 val s = { s with engines := { s.engines with engine1 := { s.engines.engine1 with propPos := val * 100 } } }
      ∧ applyEntry 59 val s = { s with engines := { s.engines with engine2 := { s.engines.engine2 with running := qBool val } } }
      ∧ applyEntry 60 val s = { s with engines := { s.engines with engine2 := { s.engines.engine2 with n1 := val } } }
      ∧ applyEntry 61 val s = { s with engines := { s.engines with engine2 := { s.engines.engine2 with n2 := val } } }
      ∧ applyEntry 62 val s = { s with engines := { s.engines with engine2 := { s.engines.engine2 with throttlePos := val * 100 } } }
      ∧ applyEntry 63 val s = { s with engines := { s.engines with engine2 := { s.engines.engine2 with mixturePos := val * 100 } } }
      ∧ applyEntry 64 val s = { s with engines := { s.engines with engine2 := { s.engines.engine2 with propPos := val * 100 } } }
      ∧ applyEntry 65 val s = { s with engines := { s.engines with engine3 := { s.engines.engine3 with running := qBool val } } }
      ∧ applyEntry 66 val s = { s with engines := { s.engines with engine3 := { s.engines.engine3 with n1 := val } } }
      ∧ applyEntry 67 val s = { s with engines := { s.engines with engine3 := { s.engines.engine3 with n2 := val } } }
      ∧ applyEntry 68 val s = { s with engines := { s.engines with engine3 := { s.engines.engine3 with throttlePos := val * 100 } } }
      ∧ applyEntry 69 val s = { s with engines := { s.engines with engine3 := { s.engines.engine3 with mixturePos := val * 100 } } }
      ∧ applyEntry 70 val s = { s with engines := { s.engines with engine3 := { s.engines.engine3 with propPos := val * 100 } } }
      ∧ applyEntry 71 val s = { s with weight := { s.weight with totalWeight := val * 2.20462 } }
      ∧ applyEntry 72 val s = { s with weight := { s.weight with fuelWeight := val * 2.20462 } } := by
  refine ⟨rfl, fun val s => ?_⟩
  repeat' apply And.intro
  all_goals rfl

/-! ### UDP datagram parsing of the listen loop -/

/-- Little-endian unsigned 32-bit read of four byte values. -/
def leUint32 (b0 b1 b2 b3 : ℕ) : ℕ :=
  b0 + 256 * b1 + 65536 * b2 + 16777216 * b3

/-- Exact rational value of an IEEE-754 single-precision bit pattern.
Normal and denormal values are exact; the non-finite patterns (exponent
255: infinities and NaN), which have no rational carrier, are mapped to
zero. -/
def float32frombits (bits : ℕ) : ℚ :=
  let sign : ℚ := if bits / 2 ^ 31 % 2 = 1 then -1 else 1
  let e : ℕ := bits / 2 ^ 23 % 2 ^ 8
  let m : ℕ := bits % 2 ^ 23
  if e = 0 then sign * (m : ℚ) / 2 ^ 149
  else if e = 255 then 0
  else sign * ((2 ^ 23 + m : ℕ) : ℚ) * (2 : ℚ) ^ ((e : ℤ) - 150)

/-- The four ASCII bytes of the response header tag RREF. -/
def rrefBytes : List ℕ := [82, 82, 69, 70]

/-- decodeEntries walks the payload after the 5-byte header in complete
8-byte steps, decoding a little-endian index and a little-endian
single-precision value from each; a trailing fragment of fewer than
8 bytes is ignored.  Mirrors the offset walk of the listen loop. -/
def decodeEntries : List ℕ → List (ℕ × ℚ)
  | b0 :: b1 :: b2 :: b3 :: b4 :: b5 :: b6 :: b7 :: rest =>
      (leUint32 b0 b1 b2 b3, float32frombits (leUint32 b4 b5 b6 b7)) ::
        decodeEntries rest
  | _ => []

/-- processDatagram handles one received datagram: a datagram shorter
than 5 bytes or whose first four bytes are not RREF is dropped with no
state change; otherwise every complete entry is applied to the snapshot
in order.  Translated from the body of the listen loop. -/
def processDatagram (dgram : List ℕ) (s : FlightData) : FlightData :=
  if dgram.length < 5 ∨ dgram.take 4 ≠ rrefBytes then s
  else (decodeEntries (dgram.drop 5)).foldl (fun t e => applyEntry e.1 e.2 t) s

/-- processRead models one loop iteration after a read of n bytes into
the persistent 4 KiB buffer: only the first n bytes of the buffer are
interpreted. -/
def processRead (buf : List ℕ) (n : ℕ) (s : FlightData) : FlightData :=
  processDatagram (buf.take n) s

theorem decodeEntries_eq_nil_of_short :
    ∀ l : List ℕ, l.length < 8 → decodeEntries l = []
  | [], _ => rfl
  | [_], _ => rfl
  | [_, _], _ => rfl
  | [_, _, _], _ => rfl
  | [_, _, _, _], _ => rfl
  | [_, _, _, _, _], _ => rfl
  | [_, _, _, _, _, _], _ => rfl
  | [_, _, _, _, _, _, _], _ => rfl
  | _ :: _ :: _ :: _ :: _ :: _ :: _ :: _ :: _, h => by
      simp at h; omega

theorem decodeEntries_append_fragment :
    ∀ (es frag : List ℕ), es.length % 8 = 0 → frag.length < 8 →
      decodeEntries (es ++ frag) = decodeEntries es := by
  intro es
  induction es using decodeEntries.induct with
  | case1 b0 b1 b2 b3 b4 b5 b6 b7 rest ih =>
      intro frag hm hf
      have hm8 : rest.length % 8 = 0 := by simp at hm; omega
      simp only [List.cons_append, decodeEntries, List.append_eq]
      rw [ih frag hm8 hf]
  | case2 l hne =>
      intro frag hm hf
      have hl : l.length < 8 := by
        by_contra hge
        push_neg at hge
        obtain ⟨a, b, c, d, e, f, g, i, rest, rfl⟩ :
            ∃ a b c d e f g i rest,
              l = a :: b :: c :: d :: e :: f :: g :: i :: rest := by
          match l, hge with
          | a :: b :: c :: d :: e :: f :: g :: i :: rest, _ =>
              exact ⟨a, b, c, d, e, f, g, i, rest, rfl⟩
        exact hne a b c d e f g i rest rfl
      have : l.length = 0 := by omega
      have hl0 : l = [] := List.length_eq_zero.mp this
      subst hl0
      simp [decodeEntries_eq_nil_of_short frag hf, decodeEntries]

theorem applyEntry_unknown_index (idx : ℕ) (val : ℚ) (s : FlightData)
    (h : 73 ≤ idx) : applyEntry idx val s = s := by
  obtain ⟨n, hn⟩ := Nat.exists_eq_add_of_le h
  rw [hn, Nat.add_comm]
  simp [applyEntry]

/-- C10: the listen loop parses every received datagram totally and in
bounds: a datagram of fewer than 5 bytes, or one whose first four bytes
are not RREF, is ignored with no state change; the result depends only on
the n received bytes, never on stale buffer contents beyond them; a
trailing fragment of fewer than 8 bytes is ignored; and an entry whose
index matches no dictionary case leaves the snapshot unchanged. -/
theorem C10_listen_loop_parsing_safety :
    (∀ (buf : List ℕ) (n : ℕ) (s : FlightData), n < 5 →
        processRead buf n s = s)
    ∧ (∀ (dgram : List ℕ) (s : FlightData), dgram.take 4 ≠ rrefBytes →
        processDatagram dgram s = s)
    ∧ (∀ (buf1 buf2 : List ℕ) (n : ℕ) (s : FlightData),
        buf1.take n = buf2.take n →
        processRead buf1 n s = processRead buf2 n s)
    ∧ (∀ (hdr es frag : List ℕ) (s : FlightData),
        hdr.length = 5 → es.length % 8 = 0 → frag.length < 8 →
        processDatagram (hdr ++ es ++ frag) s = processDatagram (hdr ++ es) s)
    ∧ (∀ (idx : ℕ) (val : ℚ) (s : FlightData), 73 ≤ idx →
        applyEntry idx val s = s) := by
  refine ⟨?_, ?_, ?_, ?_, ?_⟩
  · intro buf n s hn
    unfold processRead processDatagram
    rw [if_pos]
    left
    calc (buf.take n).length ≤ n := by simp
      _ < 5 := hn
  · intro dgram s hhdr
    unfold processDatagram
    rw [if_pos (Or.inr hhdr)]
  · intro buf1 buf2 n s h
    unfold processRead
    rw [h]
  · intro hdr es frag s hh hm hf
    unfold processDatagram
    have hlen1 : (hdr ++ es ++ frag).take 4 = hdr.take 4 := by
      rw [List.append_assoc, List.take_append_of_le_length (by omega)]
    have hlen2 : (hdr ++ es).take 4 = hdr.take 4 := by
      rw [List.take_append_of_le_length (by omega)]
    have hdrop1 : (hdr ++ es ++ frag).drop 5 = es ++ frag := by
      rw [List.append_assoc, List.drop_append_of_le_length (by omega)]
      rw [List.drop_eq_nil_of_le (by omega), List.nil_append]
    have hdrop2 : (hdr ++ es).drop 5 = es := by
      rw [List.drop_append_of_le_length (by omega)]
      rw [List.drop_eq_nil_of_le (by omega), List.nil_append]
    have hlength : ¬ ((hdr ++ es ++ frag).length < 5) := by simp; omega
    have hlength2 : ¬ ((hdr ++ es).length < 5) := by simp; omega
    by_cases hc : hdr.take 4 = rrefBytes
    · rw [if_neg (by rw [hlen1]; simp [hc]; omega),
        if_neg (by rw [hlen2]; simp [hc]; omega)]
      rw [hdrop1, hdrop2, decodeEntries_append_fragment es frag hm hf]
    · rw [if_pos (Or.inr (by rw [hlen1]; exact hc)),
        if_pos (Or.inr (by rw [hlen2]; exact hc))]
  · exact applyEntry_unknown_index

/-- Witness for C10 at concrete inputs: a 3-byte datagram is ignored, a
bad-header datagram is ignored, two buffers agreeing on the first 6 bytes
parse alike, a 6-byte fragment after one complete entry is ignored, and
index 99 leaves the zero snapshot unchanged. -/
theorem C10_listen_loop_parsing_safety_witness :
    processRead [82, 82, 69] 3 FlightData.zero = FlightData.zero
    ∧ processDatagram [1, 2, 3, 4, 5, 6] FlightData.zero = FlightData.zero
    ∧ processRead [82, 82, 69, 70, 0, 9, 7] 6 FlightData.zero
        = processRead [82, 82, 69, 70, 0, 9, 8] 6 FlightData.zero
    ∧ processDatagram ([82, 82, 69, 70, 0] ++ [] ++ [1, 2, 3, 4, 5, 6]) FlightData.zero
        = processDatagram ([82, 82, 69, 70, 0] ++ []) FlightData.zero
    ∧ applyEntry 99 1 FlightData.zero = FlightData.zero := by
  refine ⟨?_, ?_, ?_, ?_, ?_⟩
  · exact C10_listen_loop_parsing_safety.1 [82, 82, 69] 3 FlightData.zero (by decide)
  · exact C10_listen_loop_parsing_safety.2.1 [1, 2, 3, 4, 5, 6] FlightData.zero (by decide)
  · exact C10_listen_loop_parsing_safety.2.2.1 [82, 82, 69, 70, 0, 9, 7]
      [82, 82, 69, 70, 0, 9, 8] 6 FlightData.zero (by decide)
  · exact C10_listen_loop_parsing_safety.2.2.2.1 [82, 82, 69, 70, 0] [] [1, 2, 3, 4, 5, 6]
      FlightData.zero (by decide) (by decide) (by decide)
  · exact C10_listen_loop_parsing_safety.2.2.2.2 99 1 FlightData.zero (by decide)

/-! ### Flight reporter: adaptive position-report cadence -/

/-- Critical report interval in milliseconds (airborne below 50 ft AGL). -/
def posIntervalCritical : ℕ := 500

/-- Default report interval in milliseconds (below 10000 ft AGL). -/
def posIntervalLow : ℕ := 1000

/-- Cruise report interval in milliseconds (at or above 10000 ft AGL). -/
def posIntervalHigh : ℕ := 2000

/-- Static report interval in milliseconds (position unchanged). -/
def posIntervalStatic : ℕ := 60000

/-- AGL threshold in feet below which the critical interval applies. -/
def criticalAltThreshold : ℚ := 50

/-- AGL threshold in feet at or above which the cruise interval applies. -/
def highAltThreshold : ℚ := 10000

/-- positionTickInterval computes the interval chosen by one tick of the
position loop, given the previous latitude and longitude, the snapshot of
this tick, and the milliseconds elapsed since the position last changed.
The position-changed test is exact rational (IEEE double in Go)
inequality; its negation is the conjunction of the two equalities.
Translated from the adaptive-interval block of positionLoop. -/
def positionTickInterval (lastLat lastLng : ℚ) (fd : FlightData)
    (sinceChangedMs : ℕ) : ℕ :=
  if (fd.position.latitude = lastLat ∧ fd.position.longitude = lastLng)
      ∧ 5000 < sinceChangedMs then posIntervalStatic
  else if fd.sensors.onGround = false
      ∧ fd.position.altitudeAGL < criticalAltThreshold then posIntervalCritical
  else if highAltThreshold ≤ fd.position.altitudeAGL then posIntervalHigh
  else posIntervalLow

/-- tickerReset tells whether the loop resets its ticker: exactly when
the computed interval differs from the current one. -/
def tickerReset (currentInterval newInterval : ℕ) : Bool :=
  decide (newInterval ≠ currentInterval)

/-- C3: on every tick with a snapshot the computed interval is 60 s when
neither latitude nor longitude has changed (exact inequality) for more
than 5 s, otherwise 0.5 s when airborne below 50 ft AGL, otherwise 2 s at
or above 10000 ft AGL, otherwise 1 s; and the ticker is reset exactly
when the computed interval differs from the current one. -/
theorem C3_adaptive_cadence :
    ∀ (lastLat lastLng : ℚ) (fd : FlightData) (sinceChangedMs cur : ℕ),
      ((fd.position.latitude = lastLat ∧ fd.position.longitude = lastLng)
          ∧ 5000 < sinceChangedMs →
        positionTickInterval lastLat lastLng fd sinceChangedMs = 60000)
      ∧ (¬ ((fd.position.latitude = lastLat ∧ fd.position.longitude = lastLng)
            ∧ 5000 < sinceChangedMs) →
          fd.sensors.onGround = false → fd.position.altitudeAGL < 50 →
          positionTickInterval lastLat lastLng fd sinceChangedMs = 500)
      ∧ (¬ ((fd.position.latitude = lastLat ∧ fd.position.longitude = lastLng)
            ∧ 5000 < sinceChangedMs) →
          ¬ (fd.sensors.onGround = false ∧ fd.position.altitudeAGL < 50) →
          (10000 : ℚ) ≤ fd.position.altitudeAGL →
          positionTickInterval lastLat lastLng fd sinceChangedMs = 2000)
      ∧ (¬ ((fd.position.latitude = lastLat ∧ fd.position.longitude = lastLng)
            ∧ 5000 < sinceChangedMs) →
          ¬ (fd.sensors.onGround = false ∧ fd.position.altitudeAGL < 50) →
          fd.position.altitudeAGL < (10000 : ℚ) →
          positionTickInterval lastLat lastLng fd sinceChangedMs = 1000)
      ∧ (tickerReset cur (positionTickInterval lastLat lastLng fd sinceChangedMs)
          = true
          ↔ positionTickInterval lastLat lastLng fd sinceChangedMs ≠ cur) := by
  intro lastLat lastLng fd sinceChangedMs cur
  refine ⟨?_, ?_, ?_, ?_, ?_⟩
  · intro hstatic
    unfold positionTickInterval
    rw [if_pos hstatic]
    rfl
  · intro hns hg ha
    unfold positionTickInterval
    rw [if_neg hns, if_pos ⟨hg, by simpa [criticalAltThreshold] using ha⟩]
    rfl
  · intro hns hnc hha
    unfold positionTickInterval
    rw [if_neg hns, if_neg (by simpa [criticalAltThreshold] using hnc),
      if_pos (by simpa [highAltThreshold] using hha)]
    rfl
  · intro hns hnc hla
    unfold positionTickInterval
    rw [if_neg hns, if_neg (by simpa [criticalAltThreshold] using hnc),
      if_neg (by simpa [highAltThreshold] using hla.not_le)]
    rfl
  · simp [tickerReset]

/-- Witness for C3 at concrete snapshots: a static tick yields 60 s; an
airborne tick at 20 ft AGL yields 0.5 s; a cruise tick at 12000 ft AGL
yields 2 s; an on-ground tick at 0 ft AGL yields 1 s; and a computed 1 s
interval resets a 2 s ticker. -/
theorem C3_adaptive_cadence_witness :
    positionTickInterval 0 0 FlightData.zero 6000 = 60000
    ∧ positionTickInterval 1 0
        { FlightData.zero with
          position := { FlightData.zero.position with latitude := 2, altitudeAGL := 20 } }
        0 = 500
    ∧ positionTickInterval 1 0
        { FlightData.zero with
          position := { FlightData.zero.position with latitude := 2, altitudeAGL := 12000 } }
        0 = 2000
    ∧ positionTickInterval 1 0
        { FlightData.zero with
          position := { FlightData.zero.position with latitude := 2 },
          sensors := { FlightData.zero.sensors with onGround := true } }
        0 = 1000
    ∧ (tickerReset 2000 (positionTickInterval 0 0 FlightData.zero 6000) = true
        ↔ positionTickInterval 0 0 FlightData.zero 6000 ≠ 2000) := by
  refine ⟨?_, ?_, ?_, ?_, ?_⟩
  · exact (C3_adaptive_cadence 0 0 FlightData.zero 6000 0).1 (by decide)
  · exact (C3_adaptive_cadence 1 0 _ 0 0).2.1 (by decide) (by decide) (by decide)
  · exact (C3_adaptive_cadence 1 0 _ 0 0).2.2.1 (by decide) (by decide) (by decide)
  · exact (C3_adaptive_cadence 1 0 _ 0 0).2.2.2.1 (by decide) (by decide) (by decide)
  · exact (C3_adaptive_cadence 0 0 FlightData.zero 6000 2000).2.2.2.2

/-! ### Flight reporter: lifecycle transitions of StopFlight and FinishFlight -/

/-- Reporter state: the state flag (active or idle), the booking
identity, and whether the position loop is running (the stop channel is
live). -/
structure ReporterState where
  active : Bool
  callsign : String
  departure : String
  arrival : String
  loopRunning : Bool
  deriving Repr, DecidableEq

/-- endFlight closes the stop channel (stopping the position loop),
returns the state to idle and clears the identity.  Translated from the
flight-service helper of the same name. -/
def endFlight (_s : ReporterState) : ReporterState :=
  { active := false, callsign := "", departure := "", arrival := "", loopRunning := false }

/-- Result of a lifecycle call: the reporter state afterwards and whether
an error was returned to the caller. -/
structure LifecycleResult where
  state : ReporterState
  isErr : Bool
  deriving Repr, DecidableEq

/-- StopFlight guards on an active flight, posts the stop notification
whose failure is only logged, and always ends the flight.  The argument
transportOk records whether the POST succeeded; it does not influence the
result.  Translated from the flight service. -/
def stopFlight (s : ReporterState) (transportOk : Bool) : LifecycleResult :=
  if s.active = false then ⟨s, true⟩
  else
    let _ := transportOk
    ⟨endFlight s, false⟩

/-- FinishFlight guards on an active flight, posts the finish
notification, surfaces a transport failure or a server status of 400 or
more as an error without ending the flight, and ends the flight
otherwise.  Translated from the flight service. -/
def finishFlight (s : ReporterState) (transportOk : Bool) (status : ℕ) :
    LifecycleResult :=
  if s.active = false then ⟨s, true⟩
  else if transportOk = false then ⟨s, true⟩
  else if 400 ≤ status then ⟨s, true⟩
  else ⟨endFlight s, false⟩

/-- A concrete active reporter state. -/
def sampleActive : ReporterState := ⟨true, "BAW123", "EGLL", "KJFK", true⟩

/-- C4 counterexample: from the active state, FinishFlight with transport
success and server status 400 surfaces an error but leaves the state
active with the position loop still running and the identity kept, so the
claim that every transport-successful FinishFlight leaves the state idle
is false. -/
theorem C4_finish_400_keeps_state_active :
    finishFlight sampleActive true 400 = ⟨sampleActive, true⟩
    ∧ (finishFlight sampleActive true 400).state.active = true
    ∧ (finishFlight sampleActive true 400).state.loopRunning = true :=
  ⟨rfl, rfl, rfl⟩

/-- C4 amended: from the active state, StopFlight always returns the
state to idle with the loop stopped and identity cleared, even when the
stop POST fails; FinishFlight does so exactly when transport succeeds and
the status is below 400; when transport succeeds with status at least
400, the error is surfaced and the state remains unchanged (still
active); a transport failure also leaves the state unchanged. -/
theorem C4_stop_finish_lifecycle :
    ∀ (s : ReporterState) (transportOk : Bool) (status : ℕ),
      s.active = true →
      stopFlight s transportOk = ⟨endFlight s, false⟩
      ∧ (endFlight s).active = false
      ∧ (endFlight s).loopRunning = false
      ∧ (endFlight s).callsign = ""
      ∧ (endFlight s).departure = ""
      ∧ (endFlight s).arrival = ""
      ∧ (transportOk = true → status < 400 →
          finishFlight s transportOk status = ⟨endFlight s, false⟩)
      ∧ (transportOk = true → 400 ≤ status →
          finishFlight s transportOk status = ⟨s, true⟩)
      ∧ (transportOk = false → finishFlight s transportOk status = ⟨s, true⟩) := by
  intro s transportOk status h
  have hne : ¬ s.active = false := by rw [h]; simp
  refine ⟨?_, rfl, rfl, rfl, rfl, rfl, ?_, ?_, ?_⟩
  · unfold stopFlight
    rw [if_neg hne]
  · intro ht hlt
    unfold finishFlight
    rw [if_neg hne, if_neg (by rw [ht]; simp), if_neg (by omega)]
  · intro ht hge
    unfold finishFlight
    rw [if_neg hne, if_neg (by rw [ht]; simp), if_pos hge]
  · intro ht
    unfold finishFlight
    rw [if_neg hne, if_pos ht]

/-- Witness for C4 at the concrete active state: cancel with a failed
POST still idles the state, finish with status 200 idles it, finish with
status 400 keeps it, and a transport failure keeps it. -/
theorem C4_stop_finish_lifecycle_witness :
    stopFlight sampleActive false = ⟨endFlight sampleActive, false⟩
    ∧ (finishFlight sampleActive true 200 = ⟨endFlight sampleActive, false⟩)
    ∧ (finishFlight sampleActive false 0 = ⟨sampleActive, true⟩) := by
  refine ⟨?_, ?_, ?_⟩
  · exact (C4_stop_finish_lifecycle sampleActive false 0 rfl).1
  · exact (C4_stop_finish_lifecycle sampleActive true 200 rfl).2.2.2.2.2.2.1 rfl
      (by omega)
  · exact (C4_stop_finish_lifecycle sampleActive false 0 rfl).2.2.2.2.2.2.2.2 rfl

/-! ### CSV export of the recording store -/

/-- Nearest integer with ties to even, the rounding used when a binary
double is rendered in fixed point. -/
def roundHalfEven (q : ℚ) : ℤ :=
  let f := ⌊q⌋
  let r := q - f
  if r < 1 / 2 then f
  else if 1 / 2 < r then f + 1
  else if f % 2 = 0 then f else f + 1

/-- Decimal digit character of n below 10. -/
def digitChar (n : ℕ) : Char := Char.ofNat (48 + n)

/-- The four decimal digit characters of n modulo 10000, most significant
first. -/
def fourDigitChars (n : ℕ) : List Char :=
  [digitChar (n / 1000 % 10), digitChar (n / 100 % 10),
   digitChar (n / 10 % 10), digitChar (n % 10)]

/-- Integer part of a scaled (times 10000) nonnegative value. -/
def intPartString (scaled : ℕ) : String := toString (scaled / 10000)

/-- The exactly-four fractional digits of a scaled (times 10000)
nonnegative value. -/
def fracPartString (scaled : ℕ) : String := String.mk (fourDigitChars (scaled % 10000))

/-- Fixed-point rendering with four fractional digits of a nonnegative
rational. -/
def formatFixed4Nonneg (v : ℚ) : String :=
  let scaled : ℕ := (roundHalfEven (v * 10000)).toNat
  intPartString scaled ++ "." ++ fracPartString scaled

/-- ff renders a float as fixed point with 4 fractional digits, the Go
call strconv.FormatFloat(v, f-format, 4, 64). -/
def ff (v : ℚ) : String :=
  if v < 0 then "-" ++ formatFixed4Nonneg (-v) else formatFixed4Nonneg v

/-- fb renders a boolean as 1 or 0, as in ExportCSV. -/
def fb (v : Bool) : String := if v then "1" else "0"

/-- The fixed CSV header written by ExportCSV, in source order. -/
def csvHeader : List String :=
  [ "timestamp"
  , "latitude", "longitude", "altitude", "altitudeAGL"
  , "pitch", "roll", "headingTrue", "headingMag", "vs", "ias", "tas", "gs"
  , "eng1Running", "eng1N1", "eng1N2", "eng1Throttle"
  , "eng2Running", "eng2N1", "eng2N2", "eng2Throttle"
  , "onGround", "stallWarning", "overspeedWarning"
  , "com1", "com2", "nav1", "nav2", "xpdrCode"
  , "apMaster", "apHeading", "apAltitude", "apVS", "apSpeed"
  , "altimeterInHg"
  , "beacon", "strobe", "landing"
  , "elevator", "aileron", "rudder", "flaps", "spoilers", "gearDown" ]

/-- One CSV data row: the stored timestamp followed by the flattened
snapshot fields in the order written by ExportCSV, booleans through fb
and floats through ff. -/
def csvRow (ts : String) (d : FlightData) : List String :=
  [ ts
  , ff d.position.latitude, ff d.position.longitude, ff d.position.altitude, ff d.position.altitudeAGL
  , ff d.attitude.pitch, ff d.attitude.roll, ff d.attitude.headingTrue, ff d.attitude.headingMag
  , ff d.attitude.vs, ff d.attitude.ias, ff d.attitude.tas, ff d.attitude.gs
  , fb d.engines.engine0.running, ff d.engines.engine0.n1, ff d.engines.engine0.n2, ff d.engines.engine0.throttlePos
  , fb d.engines.engine1.running, ff d.engines.engine1.n1, ff d.engines.engine1.n2, ff d.engines.engine1.throttlePos
  , fb d.sensors.onGround, fb d.sensors.stallWarning, fb d.sensors.overspeedWarning
  , ff d.radios.com1, ff d.radios.com2, ff d.radios.nav1, ff d.radios.nav2, ff d.radios.xpdrCode
  , fb d.autopilot.master, ff d.autopilot.heading, ff d.autopilot.altitude, ff d.autopilot.vs, ff d.autopilot.speed
  , ff d.altimeter
  , fb d.lights.beacon, fb d.lights.strobe, fb d.lights.landing
  , ff d.controls.elevator, ff d.controls.aileron, ff d.controls.rudder
  , ff d.controls.flaps, ff d.controls.spoilers, fb d.controls.gearDown ]

/-- exportCSV writes the header line, then one data row per stored
record in id order, and purges the store; the result is the written CSV
lines and the store afterwards.  Translated from ExportCSV of the flight
data service. -/
def exportCSV (store : List (String × FlightData)) :
    List (List String) × List (String × FlightData) :=
  (csvHeader :: store.map (fun r => csvRow r.1 r.2), [])

/-- C7 counterexample: the fixed CSV header written by ExportCSV has 44
columns, not the 42 the claim states. -/
theorem C7_header_has_44_columns :
    csvHeader.length = 44 ∧ ¬ csvHeader.length = 42 := by
  constructor
  · rfl
  · intro h
    simp [csvHeader] at h

/-- C7 amended: ExportCSV of a store with N rows produces N+1 lines,
a fixed 44-column header followed by the N data rows of 44 cells each in
store order, leaves the store empty, and an immediately repeated export
produces only the header line; booleans are written as 0 or 1 and floats
in fixed point with exactly four fractional digits. -/
theorem C7_exportCSV_spec :
    ∀ store : List (String × FlightData),
      (exportCSV store).1.length = store.length + 1
      ∧ (exportCSV store).1.head? = some csvHeader
      ∧ (exportCSV store).2 = []
      ∧ exportCSV (exportCSV store).2 = ([csvHeader], [])
      ∧ csvHeader.length = 44
      ∧ (∀ row ∈ (exportCSV store).1, row.length = 44)
      ∧ (∀ b, fb b = if b then "1" else "0")
      ∧ (∀ scaled : ℕ, (fracPartString scaled).length = 4)
      ∧ (∀ v : ℚ, 0 ≤ v →
          ff v = intPartString ((roundHalfEven (v * 10000)).toNat)
            ++ "." ++ fracPartString ((roundHalfEven (v * 10000)).toNat)) := by
  intro store
  refine ⟨by simp [exportCSV], rfl, rfl, rfl, rfl, ?_, fun _ => rfl, fun _ => rfl, ?_⟩
  · intro row hrow
    rcases List.mem_cons.mp hrow with h | h
    · rw [h]; rfl
    · obtain ⟨r, _, hr⟩ := List.mem_map.mp h
      rw [← hr]
      rfl
  · intro v hv
    unfold ff
    rw [if_neg (by exact not_lt.mpr hv)]
    rfl

/-- Witness for C7 at a concrete one-row store: two lines come out, every
row has 44 cells, and a nonnegative float renders through the fixed-point
path. -/
theorem C7_exportCSV_spec_witness :
    (exportCSV [("2024-01-01 00:00:00", FlightData.zero)]).1.length = 1 + 1
    ∧ (∀ row ∈ (exportCSV [("2024-01-01 00:00:00", FlightData.zero)]).1, row.length = 44)
    ∧ ff 0 = intPartString ((roundHalfEven ((0 : ℚ) * 10000)).toNat)
        ++ "." ++ fracPartString ((roundHalfEven ((0 : ℚ) * 10000)).toNat) := by
  refine ⟨?_, ?_, ?_⟩
  · exact (C7_exportCSV_spec [("2024-01-01 00:00:00", FlightData.zero)]).1
  · exact (C7_exportCSV_spec [("2024-01-01 00:00:00", FlightData.zero)]).2.2.2.2.2.1
  · exact (C7_exportCSV_spec []).2.2.2.2.2.2.2.2 0 (by norm_num)

/-! ### Stream engine: reconnect backoff of dataStreamLoop -/

/-- Outcome of one polling tick as seen by the stream loop: either the
latest call returned data, or it failed, in which case gateOpen tells
whether the wall clock since the last reconnect attempt has reached the
armed backoff, and reconnectOk the outcome of the close-then-open
attempt. -/
inductive StreamTick where
  | success : StreamTick
  | failure (gateOpen : Bool) (reconnectOk : Bool) : StreamTick
  deriving Repr, DecidableEq

/-- The backoff-relevant state of the stream loop: the sim-active flag
and the armed reconnect backoff in seconds (0 means disarmed). -/
structure StreamState where
  simActive : Bool
  backoffSec : ℕ
  deriving Repr, DecidableEq

/-- State at loop start: sim-active false (ConnectSim resets it before
starting the stream) and no backoff armed. -/
def streamInit : StreamState := ⟨false, 0⟩

/-- streamStep is one iteration of the polling loop restricted to the
sim-active flag and backoff bookkeeping: on data, sim-active is set and
the backoff reset; on a failed latest call, a previously active engine
arms a 2 s backoff (with an immediate first attempt allowed), and an
armed backoff whose gate has elapsed triggers a close-then-open attempt
that on failure doubles the backoff while it is below 30 s and on success
resets it.  Translated from the error and success branches of
dataStreamLoop. -/
def streamStep (st : StreamState) (e : StreamTick) : StreamState :=
  match e with
  | .success => ⟨true, 0⟩
  | .failure gateOpen reconnectOk =>
      let b := if st.simActive then 2 else st.backoffSec
      if 0 < b ∧ gateOpen = true then
        if reconnectOk then ⟨false, 0⟩
        else ⟨false, if b < 30 then b * 2 else b⟩
      else ⟨false, b⟩

/-- Invariant of the stream loop: the armed backoff is one of the values
0, 2, 4, 8, 16, 32, and a sim-active state carries no armed backoff. -/
def StreamInv (st : StreamState) : Prop :=
  (st.backoffSec = 0 ∨ st.backoffSec = 2 ∨ st.backoffSec = 4 ∨ st.backoffSec = 8
    ∨ st.backoffSec = 16 ∨ st.backoffSec = 32)
  ∧ (st.simActive = true → st.backoffSec = 0)

theorem streamStep_preserves_inv (st : StreamState) (e : StreamTick)
    (h : StreamInv st) : StreamInv (streamStep st e) := by
  obtain ⟨hb, ha⟩ := h
  cases e with
  | success => exact ⟨Or.inl rfl, fun _ => rfl⟩
  | failure gateOpen reconnectOk =>
      cases hsa : st.simActive with
      | true =>
          have h0 : st.backoffSec = 0 := ha hsa
          cases gateOpen <;> cases reconnectOk <;>
            simp [streamStep, hsa, h0, StreamInv]
      | false =>
          rcases hb with h0 | h0 | h0 | h0 | h0 | h0 <;>
            cases gateOpen <;> cases reconnectOk <;>
              simp [streamStep, hsa, h0, StreamInv]

theorem streamInv_foldl :
    ∀ (evs : List StreamTick) (st : StreamState), StreamInv st →
      StreamInv (evs.foldl streamStep st) := by
  intro evs
  induction evs with
  | nil => intro st h; exact h
  | cons e rest ih =>
      intro st h
      exact ih (streamStep st e) (streamStep_preserves_inv st e h)

/-- C8: along every execution of the polling loop from the initial
state, an armed reconnect wait lies in the interval [2 s, 60 s]; a failed
reconnect attempt never decreases the armed wait of an invariant state;
and a successful snapshot resets the backoff and marks the engine
active. -/
theorem C8_backoff_schedule_invariant :
    (∀ evs : List StreamTick,
        (evs.foldl streamStep streamInit).backoffSec ≠ 0 →
        2 ≤ (evs.foldl streamStep streamInit).backoffSec
          ∧ (evs.foldl streamStep streamInit).backoffSec ≤ 60)
    ∧ (∀ (st : StreamState) (gateOpen : Bool), StreamInv st →
        st.backoffSec ≤ (streamStep st (.failure gateOpen false)).backoffSec)
    ∧ (∀ st : StreamState,
        (streamStep st .success).backoffSec = 0
        ∧ (streamStep st .success).simActive = true) := by
  refine ⟨?_, ?_, ?_⟩
  · intro evs hne
    have hinv := streamInv_foldl evs streamInit ⟨Or.inl rfl, fun _ => rfl⟩
    obtain ⟨hb, -⟩ := hinv
    rcases hb with h0 | h0 | h0 | h0 | h0 | h0 <;> rw [h0] <;> omega
  · intro st gateOpen h
    obtain ⟨hb, ha⟩ := h
    cases hsa : st.simActive with
    | true =>
        have h0 : st.backoffSec = 0 := ha hsa
        cases gateOpen <;> simp [streamStep, hsa, h0]
    | false =>
        rcases hb with h0 | h0 | h0 | h0 | h0 | h0 <;>
          cases gateOpen <;> simp [streamStep, hsa, h0]
  · intro st
    exact ⟨rfl, rfl⟩

/-- Witness for C8 at a concrete trace and state: after a success
followed by two gated failed attempts the armed wait is 8, within
[2, 60]; a failed attempt from the armed state ⟨false, 4⟩ does not
decrease the wait; and a success from that state resets it. -/
theorem C8_backoff_schedule_invariant_witness :
    (2 ≤ (([StreamTick.success, StreamTick.failure true false,
            StreamTick.failure true false]).foldl streamStep streamInit).backoffSec
      ∧ (([StreamTick.success, StreamTick.failure true false,
            StreamTick.failure true false]).foldl streamStep streamInit).backoffSec ≤ 60)
    ∧ (StreamState.mk false 4).backoffSec
        ≤ (streamStep ⟨false, 4⟩ (.failure true false)).backoffSec
    ∧ (streamStep ⟨false, 4⟩ .success).backoffSec = 0 := by
  refine ⟨?_, ?_, ?_⟩
  · exact C8_backoff_schedule_invariant.1
      [StreamTick.success, StreamTick.failure true false, StreamTick.failure true false]
      (by decide)
  · exact C8_backoff_schedule_invariant.2.1 ⟨false, 4⟩ true
      ⟨Or.inr (Or.inr (Or.inl rfl)), fun h => by simp at h⟩
  · exact (C8_backoff_schedule_invariant.2.2 ⟨false, 4⟩).1

/-! ### Stream engine: staleness detection and reconnect (spec model)

The staleness-aware revision of dataStreamLoop is described by the spec,
exercised by TestStalenessDetectionCondition and TestBackoffCalculation
and laid out in the reconnect plan document, but its compiled
implementation file is not part of the source tree, so the definitions
below are modelled from the spec. -/

/-- Modelled from the spec: the exponential backoff schedule of the
staleness reconnect path, delay(n) = min(2 to the n times 5 s, 60 s)
where n is the consecutive failure count. -/
def staleBackoffDelay (n : ℕ) : ℕ := min (2 ^ n * 5) 60

/-- Modelled from the spec: the staleness condition, sim-active with a
non-zero lastReceived older than 10 s of wall clock (times in seconds, 0
meaning the zero time). -/
def isStale (simActive : Bool) (lastReceived now : ℕ) : Bool :=
  simActive && decide (lastReceived ≠ 0) && decide (10 < now - lastReceived)

/-- Modelled from the spec: the engine state consulted by the staleness
reconnect path: the sim-active flag, the consecutive failure count, and
the wall clock of the last reconnect attempt. -/
structure EngineSpecState where
  simActive : Bool
  failCount : ℕ
  lastAttempt : ℕ
  deriving Repr, DecidableEq

/-- Result of one modelled engine tick: the state afterwards and whether
the reconnect path (close then open of the bound adapter) ran. -/
structure EngineTickResult where
  state : EngineSpecState
  reconnected : Bool
  deriving Repr, DecidableEq

/-- Modelled from the spec: one polling tick of the staleness-aware
engine.  A tick whose latest call fails, or whose adapter is stale, is
treated as a failure: sim-active is cleared and, when the backoff gate
has elapsed, the adapter is closed and reopened, resetting the failure
count on success and incrementing it on failure; a successful fresh tick
sets sim-active and resets the failure count. -/
def engineTick (st : EngineSpecState) (latestOk : Bool)
    (lastReceived now : ℕ) (reconnectOk : Bool) : EngineTickResult :=
  let failed := !latestOk || isStale st.simActive lastReceived now
  if failed = true then
    if staleBackoffDelay st.failCount ≤ now - st.lastAttempt then
      if reconnectOk then ⟨⟨false, 0, now⟩, true⟩
      else ⟨⟨false, st.failCount + 1, now⟩, true⟩
    else ⟨⟨false, st.failCount, st.lastAttempt⟩, false⟩
  else ⟨⟨true, 0, st.lastAttempt⟩, false⟩

/-- C1: a sim-active tick whose lastReceived is non-zero and older than
10 s is treated exactly as a tick whose latest call failed: the whole
tick result coincides with the failing-latest tick, the reconnect path
(close then open) runs precisely when the backoff gate has elapsed, and
the gate uses the schedule min(2 to the n times 5 s, 60 s), which always
lies between 5 s and 60 s. -/
theorem C1_staleness_triggers_reconnect :
    ∀ (st : EngineSpecState) (lastReceived now : ℕ) (reconnectOk : Bool),
      st.simActive = true → lastReceived ≠ 0 → 10 < now - lastReceived →
      engineTick st true lastReceived now reconnectOk
        = engineTick st false lastReceived now reconnectOk
      ∧ ((engineTick st true lastReceived now reconnectOk).reconnected = true
          ↔ staleBackoffDelay st.failCount ≤ now - st.lastAttempt)
      ∧ staleBackoffDelay st.failCount = min (2 ^ st.failCount * 5) 60
      ∧ 5 ≤ staleBackoffDelay st.failCount
      ∧ staleBackoffDelay st.failCount ≤ 60 := by
  intro st lastReceived now reconnectOk hsa hlr hold
  have hstale : isStale st.simActive lastReceived now = true := by
    simp [isStale, hsa, hlr, hold]
  have h2 : 1 ≤ 2 ^ st.failCount := Nat.one_le_two_pow
  refine ⟨?_, ?_, rfl, ?_, Nat.min_le_right _ _⟩
  · simp [engineTick, hstale]
  · by_cases hg : staleBackoffDelay st.failCount ≤ now - st.lastAttempt
    · cases reconnectOk <;> simp [engineTick, hstale, hg]
    · simp [engineTick, hstale, hg]
  · unfold staleBackoffDelay
    rw [Nat.min_def]
    split <;> omega

/-- Witness for C1 at a concrete state: an active engine whose adapter
last delivered at t = 1 s, polled at t = 12 s, is handled exactly like a
failing tick and reconnects, the initial gate 5 s having elapsed. -/
theorem C1_staleness_triggers_reconnect_witness :
    engineTick ⟨true, 0, 0⟩ true 1 12 false = engineTick ⟨true, 0, 0⟩ false 1 12 false
    ∧ ((engineTick ⟨true, 0, 0⟩ true 1 12 false).reconnected = true
        ↔ staleBackoffDelay 0 ≤ 12 - 0)
    ∧ staleBackoffDelay 0 = min (2 ^ 0 * 5) 60
    ∧ 5 ≤ staleBackoffDelay 0
    ∧ staleBackoffDelay 0 ≤ 60 :=
  C1_staleness_triggers_reconnect ⟨true, 0, 0⟩ 1 12 false rfl
    (by decide) (by decide)

/-! ### Flight reporter: report retry and pending buffer (spec model)

The retry helper doRequestWithRetry, the pending buffer and the constants
retryAttempts and maxPendingReports are exercised by the flight-service
tests (TestDoRequestWithRetry, TestFlushPendingReports,
TestMaxPendingReportsConstant, TestRetryAttemptsConstant) but their
implementation file is not part of the source tree, so the definitions
below are modelled from the spec. -/

/-- Modelled from the spec: the retry cap of a position-report POST,
asserted equal to 4 by TestRetryAttemptsConstant. -/
def retryAttempts : ℕ := 4

/-- Modelled from the spec: the pending-buffer capacity, asserted equal
to 500 by TestMaxPendingReportsConstant. -/
def maxPendingReports : ℕ := 500

/-- Helper of the retry model: fuel-bounded attempt loop; outcomes k
tells whether attempt number k succeeds; the result is the number of
attempts performed and whether one succeeded. -/
def retryGo (outcomes : ℕ → Bool) : ℕ → ℕ → ℕ × Bool
  | 0, used => (used, false)
  | fuel + 1, used =>
      if outcomes used then (used + 1, true)
      else retryGo outcomes fuel (used + 1)

/-- Modelled from the spec: doRequestWithRetry performs up to
retryAttempts attempts, stopping at the first success. -/
def doRequestWithRetry (outcomes : ℕ → Bool) : ℕ × Bool :=
  retryGo outcomes retryAttempts 0

/-- Modelled from the spec: appending a report to the pending FIFO
buffer of capacity maxPendingReports; on overflow the oldest (front)
report is dropped. -/
def appendPending {α : Type} (buf : List α) (r : α) : List α :=
  let b := buf ++ [r]
  if maxPendingReports < b.length then b.drop (b.length - maxPendingReports) else b

/-- Modelled from the spec: the submission step of one position-loop
tick for one report: retry the POST up to four times; if every attempt
fails, queue the report. -/
def submitReport {α : Type} (outcomes : ℕ → Bool) (pending : List α) (r : α) :
    List α × Bool :=
  if (doRequestWithRetry outcomes).2 then (pending, true)
  else (appendPending pending r, false)

theorem retryGo_attempts_le (outcomes : ℕ → Bool) :
    ∀ (fuel used : ℕ), (retryGo outcomes fuel used).1 ≤ used + fuel := by
  intro fuel
  induction fuel with
  | zero => intro used; simp [retryGo]
  | succ n ih =>
      intro used
      unfold retryGo
      by_cases h : outcomes used = true
      · rw [if_pos h]; omega
      · rw [if_neg h]
        calc (retryGo outcomes n (used + 1)).1 ≤ used + 1 + n := ih (used + 1)
          _ = used + (n + 1) := by omega

/-- C2: every report is attempted at most 4 times; a report whose four
attempts all fail is attempted exactly 4 times and appended to the
pending buffer; the append keeps the buffer at or below its capacity of
500; appending to a full buffer drops the oldest report, and appending
to a buffer below capacity simply appends. -/
theorem C2_retry_and_pending_buffer :
    (∀ outcomes : ℕ → Bool, (doRequestWithRetry outcomes).1 ≤ 4)
    ∧ (∀ outcomes : ℕ → Bool, (∀ k, k < 4 → outcomes k = false) →
        doRequestWithRetry outcomes = (4, false))
    ∧ (∀ (outcomes : ℕ → Bool) (pending : List ℕ) (r : ℕ),
        (∀ k, k < 4 → outcomes k = false) →
        submitReport outcomes pending r = (appendPending pending r, false))
    ∧ (∀ (buf : List ℕ) (r : ℕ), buf.length ≤ 500 →
        (appendPending buf r).length ≤ 500)
    ∧ (∀ (buf : List ℕ) (r : ℕ), buf.length = 500 →
        appendPending buf r = buf.drop 1 ++ [r])
    ∧ (∀ (buf : List ℕ) (r : ℕ), buf.length < 500 →
        appendPending buf r = buf ++ [r]) := by
  have hfail : ∀ outcomes : ℕ → Bool, (∀ k, k < 4 → outcomes k = false) →
      doRequestWithRetry outcomes = (4, false) := by
    intro outcomes h
    have h0 := h 0 (by omega)
    have h1 := h 1 (by omega)
    have h2 := h 2 (by omega)
    have h3 := h 3 (by omega)
    simp [doRequestWithRetry, retryAttempts, retryGo, h0, h1, h2, h3]
  refine ⟨?_, hfail, ?_, ?_, ?_, ?_⟩
  · intro outcomes
    have := retryGo_attempts_le outcomes retryAttempts 0
    simpa [doRequestWithRetry, retryAttempts] using this
  · intro outcomes pending r h
    unfold submitReport
    rw [hfail outcomes h]
    simp
  · intro buf r hle
    unfold appendPending
    by_cases hc : maxPendingReports < (buf ++ [r]).length
    · rw [if_pos hc]
      simp only [List.length_drop, List.length_append, List.length_cons,
        List.length_nil] at *
      simp only [maxPendingReports] at *
      omega
    · rw [if_neg hc]
      simp only [List.length_append, List.length_cons, List.length_nil] at *
      simp only [maxPendingReports] at *
      omega
  · intro buf r hfull
    unfold appendPending
    rw [if_pos (by simp [maxPendingReports, hfull])]
    have hd : (buf ++ [r]).length - maxPendingReports = 1 := by
      simp [maxPendingReports, hfull]
    rw [hd, List.drop_append_of_le_length (by omega)]
  · intro buf r hlt
    unfold appendPending
    rw [if_neg (by simp [maxPendingReports]; omega)]

/-- Witness for C2 at concrete inputs: a never-succeeding POST uses
exactly 4 attempts and queues the report; a full buffer of 500 zeros
drops its oldest entry on append and stays at 500; a buffer of one
report simply appends. -/
theorem C2_retry_and_pending_buffer_witness :
    (doRequestWithRetry (fun _ => false)).1 ≤ 4
    ∧ doRequestWithRetry (fun _ => false) = (4, false)
    ∧ submitReport (fun _ => false) [9] 7 = (appendPending [9] 7, false)
    ∧ (appendPending (List.replicate 500 0) 7).length ≤ 500
    ∧ appendPending (List.replicate 500 0) 7 = (List.replicate 500 (0 : ℕ)).drop 1 ++ [7]
    ∧ appendPending [9] 7 = [9] ++ [7] := by
  refine ⟨?_, ?_, ?_, ?_, ?_, ?_⟩
  · exact C2_retry_and_pending_buffer.1 (fun _ => false)
  · exact C2_retry_and_pending_buffer.2.1 (fun _ => false) (fun _ _ => rfl)
  · exact C2_retry_and_pending_buffer.2.2.1 (fun _ => false) [9] 7 (fun _ _ => rfl)
  · exact C2_retry_and_pending_buffer.2.2.2.1 (List.replicate 500 0) 7
      (by rw [List.length_replicate])
  · exact C2_retry_and_pending_buffer.2.2.2.2.1 (List.replicate 500 0) 7
      (by rw [List.length_replicate])
  · exact C2_retry_and_pending_buffer.2.2.2.2.2 [9] 7 (by simp)

end AirspaceAcars
